import Mathlib

/-!
Shallow embedding of the nexus-ward complaint portal: the SQL schema and
row-level security policies from the migration file, and the client data
gateway operations from `Dashboard.tsx` and `ComplaintDialog.tsx`.

Tables are lists of row structures; row-level policies are Boolean
predicates over the acting account and the affected row, mirroring the
`USING` / `WITH CHECK` clauses of the migration.  The acting account is an
`Option UserId`: `none` models an unauthenticated session (all policies in
the migration are `TO authenticated`).
-/

namespace NexusWard

/-- Account identifiers (UUIDs in the source) are modelled as naturals. -/
abbrev UserId := Nat

/-- `app_role` enum: `CREATE TYPE public.app_role AS ENUM ('student', 'admin')`. -/
inductive AppRole where
  | student
  | admin
deriving DecidableEq

/-- `complaint_status` enum from the migration. -/
inductive ComplaintStatus where
  | new
  | in_progress
  | resolved
  | closed
deriving DecidableEq

/-- `complaint_priority` enum from the migration. -/
inductive ComplaintPriority where
  | low
  | medium
  | high
  | urgent
deriving DecidableEq

/-- A row of `public.user_roles` (the `id` and `created_at` columns play no
role in any policy and are omitted). -/
structure UserRoleRow where
  user_id : UserId
  role : AppRole
deriving DecidableEq

/-- A row of `public.profiles`; `full_name` is nullable in the schema. -/
structure ProfileRow where
  id : UserId
  full_name : Option String
deriving DecidableEq

/-- A row of `public.complaints`. -/
structure ComplaintRow where
  id : Nat
  user_id : UserId
  title : String
  description : String
  category : String
  status : ComplaintStatus
  priority : ComplaintPriority
  is_anonymous : Bool
  assigned_to : Option UserId
  upvotes : Nat
  created_at : Nat
deriving DecidableEq

/-- A row of `public.complaint_attachments`. -/
structure AttachmentRow where
  complaint_id : Nat
  file_name : String
  file_url : String
  file_size : Nat
  file_type : String
deriving DecidableEq

/-- A row of `public.complaint_status_history`. -/
structure StatusHistoryRow where
  complaint_id : Nat
  status : ComplaintStatus
  changed_by : UserId
  notes : Option String
deriving DecidableEq

/-- A row of `public.admin_notes`. -/
structure AdminNoteRow where
  complaint_id : Nat
  admin_id : UserId
  note : String
deriving DecidableEq

/-- The relational store: one list per table of the migration. -/
structure DB where
  user_roles : List UserRoleRow
  profiles : List ProfileRow
  complaints : List ComplaintRow
  complaint_attachments : List AttachmentRow
  complaint_status_history : List StatusHistoryRow
  admin_notes : List AdminNoteRow
deriving DecidableEq

/-- `public.has_role(_user_id, _role)`: `SELECT EXISTS (SELECT 1 FROM
public.user_roles WHERE user_id = _user_id AND role = _role)`.  The
function is `SECURITY DEFINER`, so it scans the raw `user_roles` table:
accordingly it is a function of the store and the queried pair only, with
no acting-account parameter and no policy filtering. -/
def has_role (db : DB) (u : UserId) (r : AppRole) : Bool :=
  db.user_roles.any (fun row => row.user_id == u && row.role == r)

/-- `WITH CHECK (auth.uid() = user_id)` of policy "Users can create
complaints" on `public.complaints` (`TO authenticated`). -/
def complaints_insert_check (actor : Option UserId) (row : ComplaintRow) : Bool :=
  match actor with
  | none => false
  | some uid => uid == row.user_id

/-- `USING` side of the two permissive UPDATE policies on
`public.complaints` ("Users can update own complaints" OR "Admins can
update any complaint"), applied to the existing row. -/
def complaints_update_using (db : DB) (actor : Option UserId) (old : ComplaintRow) : Bool :=
  match actor with
  | none => false
  | some uid => uid == old.user_id || has_role db uid .admin

/-- Check applied to the updated row: neither UPDATE policy declares a
`WITH CHECK`, so each policy's `USING` expression is applied to the new
row, and permissive policies combine with OR. -/
def complaints_update_check (db : DB) (actor : Option UserId) (new : ComplaintRow) : Bool :=
  match actor with
  | none => false
  | some uid => uid == new.user_id || has_role db uid .admin

/-- An UPDATE of a complaint row is permitted when the old row passes some
policy's `USING` and the new row passes some policy's check. -/
def complaints_update_allowed (db : DB) (actor : Option UserId)
    (old new : ComplaintRow) : Bool :=
  complaints_update_using db actor old && complaints_update_check db actor new

/-- `WITH CHECK (public.has_role(auth.uid(), 'admin'))` of policy "Admins
can add status history" on `public.complaint_status_history`. -/
def status_history_insert_check (db : DB) (actor : Option UserId)
    (_row : StatusHistoryRow) : Bool :=
  match actor with
  | none => false
  | some uid => has_role db uid .admin

/-- `WITH CHECK (public.has_role(auth.uid(), 'admin') AND auth.uid() =
admin_id)` of policy "Only admins can create admin notes". -/
def admin_notes_insert_check (db : DB) (actor : Option UserId)
    (row : AdminNoteRow) : Bool :=
  match actor with
  | none => false
  | some uid => has_role db uid .admin && uid == row.admin_id

/-- `USING (public.has_role(auth.uid(), 'admin'))` of policy "Only admins
can view admin notes". -/
def admin_notes_select_using (db : DB) (actor : Option UserId)
    (_row : AdminNoteRow) : Bool :=
  match actor with
  | none => false
  | some uid => has_role db uid .admin

/-- `WITH CHECK (EXISTS (SELECT 1 FROM public.complaints WHERE id =
complaint_id AND user_id = auth.uid()))` of policy "Users can add
attachments to own complaints". -/
def attachments_insert_check (db : DB) (actor : Option UserId)
    (row : AttachmentRow) : Bool :=
  match actor with
  | none => false
  | some uid =>
      db.complaints.any (fun c => c.id == row.complaint_id && c.user_id == uid)

/-- Number of `user_roles` rows carrying a given (account, role) pair. -/
def rolePairCount (db : DB) (u : UserId) (r : AppRole) : Nat :=
  db.user_roles.countP (fun row => row.user_id == u && row.role == r)

/-- Insert into `user_roles` under the table's `UNIQUE(user_id, role)`
constraint: a duplicate pair makes the statement fail and leaves the table
unchanged; otherwise the row is appended. -/
def insert_user_role (db : DB) (row : UserRoleRow) : Except String DB :=
  if db.user_roles.any (fun q => q.user_id == row.user_id && q.role == row.role) then
    .error "duplicate key value violates unique constraint on (user_id, role)"
  else
    .ok { db with user_roles := db.user_roles ++ [row] }

/-- Insert into `profiles` under its primary-key constraint on `id`. -/
def insert_profile (db : DB) (p : ProfileRow) : Except String DB :=
  if db.profiles.any (fun q => q.id == p.id) then
    .error "duplicate key value violates profiles primary key"
  else
    .ok { db with profiles := db.profiles ++ [p] }

/-- A freshly created `auth.users` row as seen by the trigger: its id and
`raw_user_meta_data ->> 'full_name'` (null when the key is absent). -/
structure AuthUser where
  id : UserId
  raw_full_name : Option String
deriving DecidableEq

/-- `public.handle_new_user()`: inserts one profile (full name copied from
the signup metadata) and one student role row for the new account. -/
def handle_new_user (db : DB) (u : AuthUser) : Except String DB := do
  let db1 ← insert_profile db { id := u.id, full_name := u.raw_full_name }
  insert_user_role db1 { user_id := u.id, role := .student }

/-- Account creation with the `on_auth_user_created` AFTER INSERT trigger:
the trigger runs inside the inserting transaction, so an error in either
insert aborts account creation as a whole. -/
def create_account (db : DB) (u : AuthUser) : Except String DB :=
  handle_new_user db u

/-- The empty store. -/
def dbEmpty : DB :=
  { user_roles := [], profiles := [], complaints := [],
    complaint_attachments := [], complaint_status_history := [],
    admin_notes := [] }

/-- A row of `storage.objects`: a stored blob in a bucket under a path. -/
structure StoredObject where
  bucket : String
  name : String
deriving DecidableEq

/-- A file picked in the complaint dialog: its name, byte size and MIME
type, as read by `handleSubmit`. -/
structure UploadFile where
  name : String
  size : Nat
  type : String
deriving DecidableEq

/-- Split a character list at every occurrence of `sep`, JavaScript
`String.prototype.split` style: the result is never empty and keeps empty
segments. -/
def splitOnChar (sep : Char) : List Char → List (List Char)
  | [] => [[]]
  | c :: cs =>
      let r := splitOnChar sep cs
      if c = sep then [] :: r
      else (c :: r.headD []) :: r.tail

/-- JavaScript `s.split(sep)` for a one-character separator. -/
def jsSplit (sep : Char) (s : String) : List String :=
  (splitOnChar sep s.data).map String.mk

/-- `file.name.split(".").pop()`: the part after the last dot of the file
name (the whole name when it contains no dot). -/
def fileExt (name : String) : String := (jsSplit '.' name).getLastD ""

/-- The storage path built by `handleSubmit` for one file:
`${complaint.id}/${Date.now()}.${fileExt}`. -/
def uploadPath (complaintId : Nat) (now : Nat) (f : UploadFile) : String :=
  toString complaintId ++ "/" ++ toString now ++ "." ++ fileExt f.name

/-- `getPublicUrl`: the public URL the platform derives from an object
path in the complaint-attachments bucket. -/
def publicUrl (path : String) : String :=
  "/storage/v1/object/public/complaint-attachments/" ++ path

/-- `(storage.foldername(name))[1]`: the first folder component of an
object path, or none when the path has no folder component. -/
def storage_foldername_first (name : String) : Option String :=
  let parts := jsSplit '/' name
  if 2 ≤ parts.length then some (parts.headD "") else none

/-- `WITH CHECK (bucket_id = 'complaint-attachments')` of storage policy
"Authenticated users can upload attachments" (`TO authenticated`). -/
def storage_insert_allowed (actor : Option UserId) (obj : StoredObject) : Bool :=
  match actor with
  | none => false
  | some _ => obj.bucket == "complaint-attachments"

/-- `USING (bucket_id = 'complaint-attachments' AND auth.uid()::text =
(storage.foldername(name))[1])` of storage policy "Users can delete own
attachments". -/
def storage_delete_allowed (actor : Option UserId) (obj : StoredObject) : Bool :=
  match actor with
  | none => false
  | some uid =>
      obj.bucket == "complaint-attachments" &&
        (match storage_foldername_first obj.name with
         | some seg => toString uid == seg
         | none => false)

/-- Outcomes of the external calls made by the upload loop, indexed by
loop iteration: `time i` is the value of `Date.now()` at iteration `i`,
`blobOk i` tells whether the blob store accepts that iteration's storage
write (size/type constraints, transport), and `insOk i` whether the
attachments-table insert call reaches the store successfully (beyond its
row-level policy). -/
structure Env where
  time : Nat → Nat
  blobOk : Nat → Bool
  insOk : Nat → Bool

/-- Client-visible state: the blob store's objects plus the relational
store. -/
structure GatewayState where
  storage : List StoredObject
  db : DB
deriving DecidableEq

/-- The `supabase.from("complaint_attachments").insert(...)` call: an
error escapes through the returned error field (never thrown); on success
the row is appended. -/
def insert_attachment (db : DB) (actor : Option UserId) (row : AttachmentRow)
    (externOk : Bool) : Option String × DB :=
  if externOk then
    if attachments_insert_check db actor row then
      (none, { db with complaint_attachments := db.complaint_attachments ++ [row] })
    else (some "new row violates row-level security policy", db)
  else (some "insert failed", db)

/-- The attachment row `handleSubmit` builds for the file of iteration
`i`. -/
def attachmentRowFor (env : Env) (complaintId : Nat) (i : Nat) (f : UploadFile) :
    AttachmentRow :=
  { complaint_id := complaintId,
    file_name := f.name,
    file_url := publicUrl (uploadPath complaintId (env.time i) f),
    file_size := f.size,
    file_type := f.type }

/-- The stored object created by the storage write of iteration `i`. -/
def storedObjectFor (env : Env) (complaintId : Nat) (i : Nat) (f : UploadFile) :
    StoredObject :=
  { bucket := "complaint-attachments", name := uploadPath complaintId (env.time i) f }

/-- The `for (const file of files)` loop of `handleSubmit`: build the
storage path, perform the storage write (an error is thrown, aborting the
loop and surfacing that error, with state as it stands), then insert the
attachment row; the insert's returned error is not checked, so the loop
continues regardless of it. -/
def upload_loop (env : Env) (actor : Option UserId) (complaintId : Nat) :
    List UploadFile → Nat → GatewayState → Option String × GatewayState
  | [], _, st => (none, st)
  | f :: fs, i, st =>
      let obj := storedObjectFor env complaintId i f
      if storage_insert_allowed actor obj && env.blobOk i then
        let st1 : GatewayState := { st with storage := st.storage ++ [obj] }
        let ins := insert_attachment st1.db actor (attachmentRowFor env complaintId i f)
          (env.insOk i)
        upload_loop env actor complaintId fs (i + 1) { st1 with db := ins.2 }
      else
        (some ("upload rejected: " ++ uploadPath complaintId (env.time i) f), st)

/-- The attachment rows for a run of consecutive successful iterations
starting at `i`. -/
def attachmentRowsFor (env : Env) (cid : Nat) : Nat → List UploadFile → List AttachmentRow
  | _, [] => []
  | i, f :: fs => attachmentRowFor env cid i f :: attachmentRowsFor env cid (i + 1) fs

/-- The stored objects for a run of consecutive successful iterations
starting at `i`. -/
def storedObjectsFor (env : Env) (cid : Nat) : Nat → List UploadFile → List StoredObject
  | _, [] => []
  | i, f :: fs => storedObjectFor env cid i f :: storedObjectsFor env cid (i + 1) fs

/-- Insert a complaint into a descending-by-`created_at` list, keeping it
sorted (the ordering applied by `.order("created_at", { ascending: false })`). -/
def insertDesc (c : ComplaintRow) : List ComplaintRow → List ComplaintRow
  | [] => [c]
  | d :: ds => if c.created_at ≤ d.created_at then d :: insertDesc c ds else c :: d :: ds

/-- Sort complaints by creation time, descending. -/
def sortByCreatedDesc : List ComplaintRow → List ComplaintRow
  | [] => []
  | c :: cs => insertDesc c (sortByCreatedDesc cs)

/-- The Dashboard `queryFn`: returns `[]` with no session; otherwise
selects all complaints ordered by `created_at` descending, adding
`eq("user_id", user.id)` when the actor is not an admin. -/
def dashboard_list (db : DB) (user : Option UserId) (isAdmin : Bool) : List ComplaintRow :=
  match user with
  | none => []
  | some uid =>
      sortByCreatedDesc
        (if isAdmin then db.complaints
         else db.complaints.filter (fun c => c.user_id == uid))

/-- Claim C2: for every account and role, `has_role` returns true iff a
role-assignment row with exactly that (account, role) pair exists; the
existential ranges over the raw `user_roles` table, unfiltered by any
row-level policy and independent of any acting account. -/
theorem has_role_iff_pair_exists (db : DB) (u : UserId) (r : AppRole) :
    has_role db u r = true ↔ ∃ row ∈ db.user_roles, row.user_id = u ∧ row.role = r := by
  simp [has_role, List.any_eq_true, Bool.and_eq_true, beq_iff_eq]

set_option maxRecDepth 4000

/-- Claim C3: an authenticated actor's insert into `complaints` passes the
row-level policy iff the row's owner field equals the actor; an
unauthenticated insert is always rejected. -/
theorem complaints_insert_owner_only (uid : UserId) (row : ComplaintRow) :
    (complaints_insert_check (some uid) row = true ↔ row.user_id = uid) ∧
      complaints_insert_check none row = false := by
  refine ⟨?_, rfl⟩
  show (uid == row.user_id) = true ↔ row.user_id = uid
  rw [beq_iff_eq]
  exact ⟨Eq.symm, Eq.symm⟩

/-- Claim C4: a status-history insert passes its policy iff the actor is an
admin; an admin-note insert passes iff the actor is an admin and the
authoring admin field equals the actor; an admin-note row is visible iff
the actor is an admin; unauthenticated actors are always rejected. -/
theorem admin_gated_history_and_notes (db : DB) (uid : UserId)
    (h : StatusHistoryRow) (n : AdminNoteRow) :
    (status_history_insert_check db (some uid) h = true ↔ has_role db uid .admin = true) ∧
    (admin_notes_insert_check db (some uid) n = true ↔
      has_role db uid .admin = true ∧ n.admin_id = uid) ∧
    (admin_notes_select_using db (some uid) n = true ↔ has_role db uid .admin = true) ∧
    status_history_insert_check db none h = false ∧
    admin_notes_insert_check db none n = false ∧
    admin_notes_select_using db none n = false := by
  refine ⟨Iff.rfl, ?_, Iff.rfl, rfl, rfl, rfl⟩
  show (has_role db uid .admin && uid == n.admin_id) = true ↔
    has_role db uid .admin = true ∧ n.admin_id = uid
  rw [Bool.and_eq_true, beq_iff_eq]
  exact ⟨fun ⟨a, b⟩ => ⟨a, b.symm⟩, fun ⟨a, b⟩ => ⟨a, b.symm⟩⟩

/-- Claim C5: under the `UNIQUE(user_id, role)` constraint, inserting a
duplicate (account, role) pair fails, and a successful insert preserves
the invariant that every pair occurs in at most one row. -/
theorem user_roles_pair_unique (db : DB) (row : UserRoleRow)
    (hinv : ∀ u r, rolePairCount db u r ≤ 1) :
    (1 ≤ rolePairCount db row.user_id row.role →
      ∃ e, insert_user_role db row = .error e) ∧
    ∀ db', insert_user_role db row = .ok db' → ∀ u r, rolePairCount db' u r ≤ 1 := by
  constructor
  · intro hdup
    have hany : db.user_roles.any
        (fun q => q.user_id == row.user_id && q.role == row.role) = true := by
      rw [List.any_eq_true]
      have hpos : 0 < db.user_roles.countP
          (fun q => q.user_id == row.user_id && q.role == row.role) :=
        Nat.lt_of_lt_of_le Nat.zero_lt_one hdup
      exact List.countP_pos_iff.mp hpos
    exact ⟨_, by unfold insert_user_role; rw [if_pos hany]⟩
  · intro db' hok u r
    unfold insert_user_role at hok
    by_cases hdup : db.user_roles.any
        (fun q => q.user_id == row.user_id && q.role == row.role) = true
    · rw [if_pos hdup] at hok
      exact absurd hok (by simp)
    · rw [if_neg hdup] at hok
      injection hok with hok
      subst hok
      show (db.user_roles ++ [row]).countP (fun q => q.user_id == u && q.role == r) ≤ 1
      rw [List.countP_append]
      by_cases hrow : (row.user_id == u && row.role == r) = true
      · have h0 : db.user_roles.countP (fun q => q.user_id == u && q.role == r) = 0 := by
          rw [List.countP_eq_zero]
          intro a ha hpa
          apply hdup
          rw [List.any_eq_true]
          refine ⟨a, ha, ?_⟩
          rw [Bool.and_eq_true] at hrow hpa
          obtain ⟨h1, h2⟩ := hrow
          obtain ⟨h3, h4⟩ := hpa
          rw [beq_iff_eq] at h1 h2 h3 h4
          rw [Bool.and_eq_true, beq_iff_eq, beq_iff_eq]
          exact ⟨h3.trans h1.symm, h4.trans h2.symm⟩
        rw [h0]
        simp [List.countP_cons, hrow]
      · have h1 : List.countP (fun q => q.user_id == u && q.role == r) [row] = 0 := by
          simp [List.countP_cons, hrow]
        rw [h1, Nat.add_zero]
        exact hinv u r

/-- Claim C5 witness: with one (1, student) row present, inserting the same
pair fails. -/
theorem user_roles_pair_unique_witness :
    ∃ e, insert_user_role { dbEmpty with user_roles := [⟨1, AppRole.student⟩] }
      ⟨1, AppRole.student⟩ = .error e :=
  (user_roles_pair_unique { dbEmpty with user_roles := [⟨1, AppRole.student⟩] }
    ⟨1, AppRole.student⟩
    (fun _ _ => Nat.le_trans (List.countP_le_length _) (by decide))).1 (by decide)

/-- Claim C6: a successful account creation appends exactly one profile row
(full name copied from the signup metadata) and exactly one student role
row, touching nothing else; and account creation fails exactly when either
of the two inserts fails. -/
theorem create_account_bootstrap (db : DB) (u : AuthUser) :
    (∀ db', create_account db u = .ok db' →
      db'.profiles = db.profiles ++ [{ id := u.id, full_name := u.raw_full_name }] ∧
      db'.user_roles = db.user_roles ++ [{ user_id := u.id, role := AppRole.student }] ∧
      db'.complaints = db.complaints ∧
      db'.complaint_attachments = db.complaint_attachments ∧
      db'.complaint_status_history = db.complaint_status_history ∧
      db'.admin_notes = db.admin_notes) ∧
    ((∃ e, create_account db u = .error e) ↔
      db.profiles.any (fun q => q.id == u.id) = true ∨
      db.user_roles.any (fun q => q.user_id == u.id && q.role == AppRole.student) = true) := by
  unfold create_account handle_new_user insert_profile insert_user_role
  by_cases hp : db.profiles.any (fun q => q.id == u.id) = true
  · constructor
    · intro db' h
      simp [hp, Bind.bind, Except.bind] at h
    · simp [hp, Bind.bind, Except.bind]
  · by_cases hr : db.user_roles.any
        (fun q => q.user_id == u.id && q.role == AppRole.student) = true
    · constructor
      · intro db' h
        simp [hp, hr, Bind.bind, Except.bind] at h
      · simp [hp, hr, Bind.bind, Except.bind]
    · constructor
      · intro db' h
        simp [hp, hr, Bind.bind, Except.bind] at h
        subst h
        exact ⟨rfl, rfl, rfl, rfl, rfl, rfl⟩
      · simp [hp, hr, Bind.bind, Except.bind]

/-- Claim C6 witness: creating account 7 with metadata name "Ada" on the
empty store yields exactly the one profile row and the one student role
row. -/
theorem create_account_bootstrap_witness :
    ∃ db' : DB, create_account dbEmpty ⟨7, some "Ada"⟩ = Except.ok db' ∧
      db'.profiles = dbEmpty.profiles ++ [{ id := 7, full_name := some "Ada" }] ∧
      db'.user_roles = dbEmpty.user_roles ++ [{ user_id := 7, role := AppRole.student }] ∧
      db'.complaints = dbEmpty.complaints ∧
      db'.complaint_attachments = dbEmpty.complaint_attachments ∧
      db'.complaint_status_history = dbEmpty.complaint_status_history ∧
      db'.admin_notes = dbEmpty.admin_notes :=
  ⟨{ dbEmpty with
      profiles := [{ id := 7, full_name := some "Ada" }],
      user_roles := [{ user_id := 7, role := AppRole.student }] }, rfl,
    (create_account_bootstrap dbEmpty ⟨7, some "Ada"⟩).1 _ rfl⟩

/-- A complaint used in concrete scenarios, owned by account 1. -/
def c7old : ComplaintRow :=
  { id := 10, user_id := 1, title := "Broken AC", description := "AC in lab 2 fails",
    category := "Facilities", status := .new, priority := .high, is_anonymous := false,
    assigned_to := none, upvotes := 0, created_at := 100 }

/-- The same complaint with its owner field rewritten to account 2. -/
def c7new : ComplaintRow := { c7old with user_id := 2 }

/-- A store where account 2 is an admin and account 1 owns `c7old`. -/
def c7db : DB :=
  { dbEmpty with
      user_roles := [{ user_id := 2, role := AppRole.admin }],
      complaints := [c7old] }

/-- A store with `c7old` present and no admin at all. -/
def c7dbNoAdmin : DB := { dbEmpty with complaints := [c7old] }

/-- Claim C7 counterexample: the admin update policy carries no `WITH
CHECK` constraining the new row beyond admin-ship, so admin account 2 is
permitted to rewrite the owner field of account 1's complaint. -/
theorem complaints_owner_mutable_by_admin :
    complaints_update_allowed c7db (some 2) c7old c7new = true ∧
      c7new.user_id ≠ c7old.user_id := by
  decide

/-- Claim C7 as amended: a NON-ADMIN actor cannot alter the owner field
through the row-level update path (the owner policy's check pins the new
row's owner to the actor, who must equal the old owner); an admin actor is
not so constrained. -/
theorem complaints_owner_immutable_for_non_admins (db : DB) (uid : UserId)
    (old new : ComplaintRow) (hadmin : has_role db uid .admin = false)
    (hallowed : complaints_update_allowed db (some uid) old new = true) :
    new.user_id = old.user_id := by
  unfold complaints_update_allowed complaints_update_using complaints_update_check
    at hallowed
  rw [Bool.and_eq_true] at hallowed
  obtain ⟨h1, h2⟩ := hallowed
  dsimp only at h1 h2
  rw [hadmin, Bool.or_false, beq_iff_eq] at h1 h2
  exact h2.symm.trans h1

/-- Claim C7 witness: a non-admin owner's permitted self-update indeed
keeps the owner field. -/
theorem complaints_owner_immutable_witness :
    has_role c7dbNoAdmin 1 AppRole.admin = false ∧
    complaints_update_allowed c7dbNoAdmin (some 1) c7old c7old = true ∧
    c7old.user_id = c7old.user_id :=
  ⟨by decide, by decide,
    complaints_owner_immutable_for_non_admins c7dbNoAdmin 1 c7old c7old
      (by decide) (by decide)⟩

theorem mem_insertDesc {a c : ComplaintRow} {l : List ComplaintRow} :
    a ∈ insertDesc c l ↔ a = c ∨ a ∈ l := by
  induction l with
  | nil => simp [insertDesc]
  | cons d ds ih =>
      unfold insertDesc
      by_cases h : c.created_at ≤ d.created_at
      · rw [if_pos h]
        simp only [List.mem_cons, ih]
        tauto
      · rw [if_neg h]
        simp only [List.mem_cons]

theorem mem_sortByCreatedDesc {a : ComplaintRow} {l : List ComplaintRow} :
    a ∈ sortByCreatedDesc l ↔ a ∈ l := by
  induction l with
  | nil => simp [sortByCreatedDesc]
  | cons c cs ih => simp [sortByCreatedDesc, mem_insertDesc, ih]

theorem pairwise_insertDesc {c : ComplaintRow} {l : List ComplaintRow}
    (h : l.Pairwise (fun a b => b.created_at ≤ a.created_at)) :
    (insertDesc c l).Pairwise (fun a b => b.created_at ≤ a.created_at) := by
  induction l with
  | nil => simp [insertDesc]
  | cons d ds ih =>
      rw [List.pairwise_cons] at h
      obtain ⟨hd, hds⟩ := h
      unfold insertDesc
      by_cases hc : c.created_at ≤ d.created_at
      · rw [if_pos hc, List.pairwise_cons]
        refine ⟨?_, ih hds⟩
        intro a ha
        rcases mem_insertDesc.mp ha with rfl | ha
        · exact hc
        · exact hd a ha
      · rw [if_neg hc, List.pairwise_cons]
        refine ⟨?_, List.pairwise_cons.mpr ⟨hd, hds⟩⟩
        intro a ha
        rcases List.mem_cons.mp ha with rfl | ha
        · exact le_of_not_le hc
        · exact le_trans (hd a ha) (le_of_not_le hc)

theorem pairwise_sortByCreatedDesc (l : List ComplaintRow) :
    (sortByCreatedDesc l).Pairwise (fun a b => b.created_at ≤ a.created_at) := by
  induction l with
  | nil => simp [sortByCreatedDesc]
  | cons c cs ih => exact pairwise_insertDesc ih

/-- Claim C8: the Dashboard listing contains exactly the actor's own rows
for a non-admin, all rows for an admin, and is ordered by creation time,
descending; with no session it is empty. -/
theorem dashboard_list_spec (db : DB) (uid : UserId) :
    (∀ c, c ∈ dashboard_list db (some uid) (has_role db uid .admin) ↔
      c ∈ db.complaints ∧ (has_role db uid .admin = true ∨ c.user_id = uid)) ∧
    (dashboard_list db (some uid) (has_role db uid .admin)).Pairwise
      (fun a b => b.created_at ≤ a.created_at) ∧
    dashboard_list db none (has_role db uid .admin) = [] := by
  refine ⟨?_, pairwise_sortByCreatedDesc _, rfl⟩
  intro c
  unfold dashboard_list
  cases hb : has_role db uid .admin with
  | true => simp [mem_sortByCreatedDesc]
  | false => simp [mem_sortByCreatedDesc, List.mem_filter, beq_iff_eq]

theorem upload_loop_cons_reject (env : Env) (uid : UserId) (cid : Nat)
    (f : UploadFile) (fs : List UploadFile) (i : Nat) (st : GatewayState)
    (hrej : env.blobOk i = false) :
    upload_loop env (some uid) cid (f :: fs) i st =
      (some ("upload rejected: " ++ uploadPath cid (env.time i) f), st) := by
  simp [upload_loop, hrej]

theorem upload_loop_cons_accept (env : Env) (uid : UserId) (cid : Nat)
    (f : UploadFile) (fs : List UploadFile) (i : Nat) (st : GatewayState)
    (hacc : env.blobOk i = true) (hins : env.insOk i = true)
    (hchk : attachments_insert_check st.db (some uid)
      (attachmentRowFor env cid i f) = true) :
    upload_loop env (some uid) cid (f :: fs) i st =
      upload_loop env (some uid) cid fs (i + 1)
        { storage := st.storage ++ [storedObjectFor env cid i f],
          db := { st.db with complaint_attachments :=
            st.db.complaint_attachments ++ [attachmentRowFor env cid i f] } } := by
  simp [upload_loop, hacc, hins, hchk, storage_insert_allowed, storedObjectFor,
    insert_attachment]

/-- Claim C9: a storage-write rejection at iteration `k = pre.length`
aborts the loop, surfaces that first error to the caller, and leaves
exactly the stored objects and attachment rows of the earlier files
persisted (rows are inserted only after their storage writes succeed). -/
theorem upload_loop_aborts_on_first_storage_error (env : Env) (uid : UserId)
    (cid : Nat) (pre : List UploadFile) (fk : UploadFile) (rest : List UploadFile) :
    ∀ (i : Nat) (st : GatewayState),
    st.db.complaints.any (fun c => c.id == cid && c.user_id == uid) = true →
    (∀ j, j < pre.length → env.blobOk (i + j) = true) →
    (∀ j, j < pre.length → env.insOk (i + j) = true) →
    env.blobOk (i + pre.length) = false →
    upload_loop env (some uid) cid (pre ++ fk :: rest) i st =
      (some ("upload rejected: " ++ uploadPath cid (env.time (i + pre.length)) fk),
       { storage := st.storage ++ storedObjectsFor env cid i pre,
         db := { st.db with complaint_attachments :=
           st.db.complaint_attachments ++ attachmentRowsFor env cid i pre } }) := by
  induction pre with
  | nil =>
      intro i st _hown _hacc _hins hrej
      rw [List.nil_append,
        upload_loop_cons_reject env uid cid fk rest i st (by simpa using hrej)]
      simp [storedObjectsFor, attachmentRowsFor]
  | cons p ps ih =>
      intro i st hown hacc hins hrej
      have hacc' : ∀ j, j < ps.length → env.blobOk (i + 1 + j) = true := by
        intro j hj
        have h := hacc (j + 1) (by simpa using Nat.succ_lt_succ hj)
        rw [show i + 1 + j = i + (j + 1) from by omega]
        exact h
      have hins' : ∀ j, j < ps.length → env.insOk (i + 1 + j) = true := by
        intro j hj
        have h := hins (j + 1) (by simpa using Nat.succ_lt_succ hj)
        rw [show i + 1 + j = i + (j + 1) from by omega]
        exact h
      have hrej' : env.blobOk (i + 1 + ps.length) = false := by
        rw [show i + 1 + ps.length = i + (ps.length + 1) from by omega]
        simpa using hrej
      rw [List.cons_append,
        upload_loop_cons_accept env uid cid p (ps ++ fk :: rest) i st
          (by simpa using hacc 0 (by simp)) (by simpa using hins 0 (by simp)) hown]
      rw [ih (i + 1)
        { storage := st.storage ++ [storedObjectFor env cid i p],
          db := { st.db with complaint_attachments :=
            st.db.complaint_attachments ++ [attachmentRowFor env cid i p] } }
        hown hacc' hins' hrej']
      rw [show i + 1 + ps.length = i + (ps.length + 1) from by omega]
      simp [storedObjectsFor, attachmentRowsFor, List.append_assoc]

/-- The two-file files list of concrete scenario D. -/
def fileA : UploadFile := { name := "photo.png", size := 1000, type := "image/png" }

/-- The second file of scenario D, rejected by the blob store. -/
def fileB : UploadFile := { name := "huge.pdf", size := 99999999, type := "application/pdf" }

/-- Environment of scenario D: the blob store accepts only the first
write; attachment inserts reach the store. -/
def envD : Env := { time := fun i => 100 + i, blobOk := fun i => i == 0, insOk := fun _ => true }

/-- Environment where every call succeeds. -/
def envC1 : Env := { time := fun _ => 100, blobOk := fun _ => true, insOk := fun _ => true }

/-- Environment where storage writes succeed but the attachments-table
insert call fails at the store. -/
def envE : Env := { time := fun _ => 100, blobOk := fun _ => true, insOk := fun _ => false }

/-- Initial gateway state for the concrete scenarios: empty blob store,
relational store holding complaint 10 owned by account 1. -/
def stD : GatewayState := { storage := [], db := c7dbNoAdmin }

/-- Claim C9 witness: scenario D — two files, the second rejected by the
blob store; exactly the first file's attachment row and stored object
remain and the second write's error is surfaced. -/
theorem upload_loop_aborts_witness :
    envD.blobOk 0 = true ∧ envD.blobOk 1 = false ∧
    (attachmentRowsFor envD 10 0 [fileA]).length = 1 ∧
    upload_loop envD (some 1) 10 [fileA, fileB] 0 stD =
      (some ("upload rejected: " ++ uploadPath 10 (envD.time 1) fileB),
       { storage := stD.storage ++ storedObjectsFor envD 10 0 [fileA],
         db := { stD.db with complaint_attachments :=
           stD.db.complaint_attachments ++ attachmentRowsFor envD 10 0 [fileA] } }) :=
  ⟨rfl, rfl, rfl,
    upload_loop_aborts_on_first_storage_error envD 1 10 [fileA] fileB [] 0 stD
      (by decide)
      (fun j hj => by
        have hj1 : j < 1 := by simpa using hj
        have hj0 : j = 0 := by omega
        subst hj0
        rfl)
      (fun _ _ => rfl)
      rfl⟩

/-- Claim C10: when the storage write succeeds but the attachment-row
insert fails, the insert call does return an error, yet the loop ignores
it and continues with the remaining files; with no file left the whole
submission completes as a success (`none`), leaving the stored object
with no corresponding attachment row. -/
theorem upload_insert_error_ignored (env : Env) (uid : UserId) (cid : Nat)
    (f : UploadFile) (fs : List UploadFile) (i : Nat) (st : GatewayState)
    (hacc : env.blobOk i = true) (hins : env.insOk i = false) :
    (insert_attachment st.db (some uid) (attachmentRowFor env cid i f)
      (env.insOk i)).1.isSome = true ∧
    upload_loop env (some uid) cid (f :: fs) i st =
      upload_loop env (some uid) cid fs (i + 1)
        { storage := st.storage ++ [storedObjectFor env cid i f], db := st.db } ∧
    upload_loop env (some uid) cid [f] i st =
      (none, { storage := st.storage ++ [storedObjectFor env cid i f], db := st.db }) := by
  refine ⟨by simp [insert_attachment, hins], ?_, ?_⟩
  · simp [upload_loop, hacc, hins, storage_insert_allowed, storedObjectFor,
      insert_attachment]
  · simp [upload_loop, hacc, hins, storage_insert_allowed, storedObjectFor,
      insert_attachment]

/-- Claim C10 witness: one file, storage write accepted, insert failing:
the submission ends as a success with a stored object and no attachment
row. -/
theorem upload_insert_error_ignored_witness :
    envE.blobOk 0 = true ∧ envE.insOk 0 = false ∧
    (insert_attachment stD.db (some 1) (attachmentRowFor envE 10 0 fileA)
      (envE.insOk 0)).1.isSome = true ∧
    upload_loop envE (some 1) 10 [fileA] 0 stD =
      (none, { storage := stD.storage ++ [storedObjectFor envE 10 0 fileA],
               db := stD.db }) := by
  refine ⟨rfl, rfl, ?_, ?_⟩
  · exact (upload_insert_error_ignored envE 1 10 fileA [] 0 stD rfl rfl).1
  · exact (upload_insert_error_ignored envE 1 10 fileA [] 0 stD rfl rfl).2.2

/-- Claim C1: the gateway stores an uploaded attachment under a path whose
FIRST segment is the parent complaint's identifier, not the owning
account's; consequently the storage delete policy, which compares the
first segment with the acting account, denies the owner deletion of the
very object their upload created. Here account 1 owns complaint 10: the
upload succeeds and lands at "10/100.png", whose first segment "10"
differs from "1", and deletion by account 1 is denied. -/
theorem attachment_path_uses_complaint_id_not_owner :
    (upload_loop envC1 (some 1) 10 [fileA] 0 stD).1 = none ∧
    (upload_loop envC1 (some 1) 10 [fileA] 0 stD).2.storage =
      [{ bucket := "complaint-attachments", name := "10/100.png" }] ∧
    storage_foldername_first "10/100.png" = some "10" ∧
    toString (1 : UserId) ≠ "10" ∧
    storage_delete_allowed (some 1)
      { bucket := "complaint-attachments", name := "10/100.png" } = false := by
  decide

end NexusWard
